import Mathlib

/-!
Verification of the Genre CRUD request handlers
(src/controllers/genreController.js) of a library-catalog web application.

The controller is embedded shallowly: the document store (an external
collaborator accessed through find / findOne / save / findByIdAndUpdate /
findByIdAndRemove) is modelled as an explicit state value threaded through
each handler, and a handler is a pure function from the store state and the
request data to the list of response actions it performs (renders,
redirects, errors passed to the upstream handler) together with the store
state it leaves behind.
-/

namespace GenreApp

/-- A Genre document: an opaque identifier plus a name
(src/models is not in the sources; the spec gives { id; name : string }). -/
structure Genre where
  id : Nat
  name : String
deriving Repr, DecidableEq

/-- A Book document, relevant only through its genre foreign key. -/
structure Book where
  id : Nat
  genre : Nat
deriving Repr, DecidableEq

/-- The document store holding both collections; nextId models the fresh
object id the store assigns at insertion. -/
structure Store where
  genres : List Genre
  books : List Book
  nextId : Nat
deriving Repr, DecidableEq

/-- Store read Genre.findById(i). -/
def findGenreById (s : Store) (i : Nat) : Option Genre :=
  s.genres.find? (fun g => g.id = i)

/-- Store read Book.find({ genre: i }): the dependent Books of a Genre. -/
def booksOfGenre (s : Store) (i : Nat) : List Book :=
  s.books.filter (fun b => b.genre = i)

/-- Store read Genre.findOne({ name: n }). -/
def findOneByName (s : Store) (n : String) : Option Genre :=
  s.genres.find? (fun g => g.name = n)

/-- Store write genre.save(): insert the document, consuming the fresh id. -/
def saveGenre (s : Store) (g : Genre) : Store :=
  { s with genres := s.genres ++ [g], nextId := s.nextId + 1 }

/-- Store write Genre.findByIdAndRemove(i): delete the document with id i;
removing an absent id is not an error and removes nothing. -/
def removeGenreById (s : Store) (i : Nat) : Store :=
  { s with genres := s.genres.filter (fun g => g.id ≠ i) }

/-- Store write Genre.findByIdAndUpdate(i, g): overwrite the document whose
id is i with g (the caller passes a g whose id is already i). -/
def replaceGenreById (s : Store) (i : Nat) (g : Genre) : Store :=
  { s with genres := s.genres.map (fun x => if x.id = i then g else x) }

/-- Modelled from the spec: the Genre model file (src/models/genre) is not
under the sources; per the external-interface section a Genre's detail
location has the form /catalog/genre/\x7bid\x7d. -/
def genreUrl (g : Genre) : String :=
  "/catalog/genre/" ++ toString g.id

/-- One character of the express-validator escape() sanitizer
(validator.js escape): markup-unsafe characters become HTML entities. -/
def escapeChar (c : Char) : String :=
  if c = '&' then "&amp;"
  else if c = '"' then "&quot;"
  else if c.toNat = 39 then "&#x27;"
  else if c = '<' then "&lt;"
  else if c = '>' then "&gt;"
  else if c = '/' then "&#x2F;"
  else if c = '\\' then "&#x5C;"
  else if c.toNat = 96 then "&#96;"
  else String.singleton c

/-- escape() applied to a whole string. -/
def escapeString (s : String) : String :=
  s.data.foldl (fun acc c => acc ++ escapeChar c) ""

/-- Whitespace recognized by the trim() sanitizer. -/
def isJsSpace (c : Char) : Bool :=
  c == ' ' || c == '\t' || c == '\n' || c == '\r' || c.toNat == 11 || c.toNat == 12

/-- The trim() sanitizer: strip leading and trailing whitespace. -/
def jsTrim (s : String) : String :=
  ⟨((s.data.dropWhile isJsSpace).reverse.dropWhile isJsSpace).reverse⟩

/-- The validation chain of genre_create_post:
body(name, msg).trim().isLength(\x7bmin: 2\x7d).escape().
Returns the sanitized value (escape of the trimmed input) and the collected
error messages (the minimum-length message when the trimmed length is < 2). -/
def validateName (raw : String) : String × List String :=
  (escapeString (jsTrim raw),
   if 2 ≤ (jsTrim raw).length then [] else ["Genre name must contain at least 2 characters"])

/-- The data context handed to res.render; absent keys keep their defaults. -/
structure RenderCtx where
  title : String
  genre : Option Genre := none
  genre_list : List Genre := []
  genre_books : List Book := []
  errors : List String := []
deriving Repr, DecidableEq

/-- One response action of a handler: a view render, a redirect, or an error
passed to the upstream error handler via next(err). -/
inductive Response where
  | render (view : String) (ctx : RenderCtx)
  | redirect (location : String)
  | nextError (message : String) (status : Nat)
deriving Repr, DecidableEq

/-- The ascending-by-name order used by the list handler's sort clause. -/
def genreLe (a b : Genre) : Prop :=
  a.name ≤ b.name

instance : DecidableRel genreLe :=
  fun a b => inferInstanceAs (Decidable (a.name ≤ b.name))

instance : IsTotal Genre genreLe :=
  ⟨fun a b => le_total a.name b.name⟩

instance : IsTrans Genre genreLe :=
  ⟨fun _ _ _ hab hbc => le_trans hab hbc⟩

/-- Genre.find().sort([[name, ascending]]): all Genres in ascending name
order (stable sort over the store's current contents). -/
def sortGenresByName (l : List Genre) : List Genre :=
  List.insertionSort genreLe l

/-- genre_list: fetch all Genres sorted by name and render the list view. -/
def genre_list (s : Store) : List Response × Store :=
  ([Response.render "genre_list"
      { title := "Genre List", genre_list := sortGenresByName s.genres }], s)

/-- genre_detail: fetch the Genre and its Books in parallel; a missing Genre
is a distinct not-found error with status 404 passed to next. -/
def genre_detail (s : Store) (i : Nat) : List Response × Store :=
  match findGenreById s i with
  | none => ([Response.nextError "Genre not found" 404], s)
  | some g =>
      ([Response.render "genre_detail"
          { title := "Genre Detail", genre := some g, genre_books := booksOfGenre s i }], s)

/-- genre_create_get: render the empty create form, no store access. -/
def genre_create_get (s : Store) : List Response × Store :=
  ([Response.render "genre_form" { title := "Create Genre" }], s)

/-- genre_create_post: the validator chain runs first (it is a proper
element of the exported middleware array), then the handler builds a Genre
from the sanitized body, re-renders the form on validation errors, and
otherwise either redirects to an existing Genre of the same name or saves
the new Genre and redirects to it. -/
def genre_create_post (s : Store) (rawName : String) : List Response × Store :=
  if (validateName rawName).2 ≠ [] then
    ([Response.render "genre_form"
        { title := "Create Genre",
          genre := some { id := s.nextId, name := (validateName rawName).1 },
          errors := (validateName rawName).2 }], s)
  else
    match findOneByName s (validateName rawName).1 with
    | some found_genre => ([Response.redirect (genreUrl found_genre)], s)
    | none =>
        ([Response.redirect (genreUrl { id := s.nextId, name := (validateName rawName).1 })],
         saveGenre s { id := s.nextId, name := (validateName rawName).1 })

/-- genre_delete_get: when the Genre is missing the source calls
res.redirect without returning, so control falls through and res.render is
invoked as well, with a null genre; both response actions are kept, in
program order. -/
def genre_delete_get (s : Store) (i : Nat) : List Response × Store :=
  ((if findGenreById s i = none then [Response.redirect "/catalog/genres"] else []) ++
   [Response.render "genre_delete"
      { title := "Delete Genre", genre := findGenreById s i,
        genre_books := booksOfGenre s i }], s)

/-- genre_delete_post: the id comes from the request body (req.body.genreid).
With dependent Books the delete is refused and the confirmation view is
re-rendered; otherwise the Genre is removed and the client is redirected to
the Genre list. -/
def genre_delete_post (s : Store) (genreid : Nat) : List Response × Store :=
  if 0 < (booksOfGenre s genreid).length then
    ([Response.render "genre_delete"
        { title := "Delete Genre", genre := findGenreById s genreid,
          genre_books := booksOfGenre s genreid }], s)
  else
    ([Response.redirect "/catalog/genres"], removeGenreById s genreid)

/-- genre_update_get: fetch the Genre; missing is the same distinct 404
not-found error as genre_detail, otherwise the form is rendered with the
update title. -/
def genre_update_get (s : Store) (i : Nat) : List Response × Store :=
  match findGenreById s i with
  | none => ([Response.nextError "Genre not found" 404], s)
  | some g =>
      ([Response.render "genre_form" { title := "Update Genre", genre := some g }], s)

/-- genre_update_post. In the source the validator chain and the request
handler are wrapped together in ONE parenthesized comma expression, so the
exported middleware array contains only the handler: the validator never
runs, req.body.name stays raw (neither trimmed nor escaped), and
validationResult(req) is always empty. The handler therefore always takes
the success branch, builds the candidate from the raw name and the route
id, and calls findByIdAndUpdate; when no document has that id the callback
receives null and dereferencing thegenre.url raises a TypeError, modelled
as an error response. -/
def genre_update_post (s : Store) (pathId : Nat) (rawName : String) : List Response × Store :=
  if ([] : List String) ≠ [] then
    ([Response.render "genre_form"
        { title := "Create Genre",
          genre := some { id := pathId, name := rawName },
          errors := [] }], s)
  else
    match findGenreById s pathId with
    | none => ([Response.nextError "TypeError: thegenre is null" 500], s)
    | some thegenre =>
        ([Response.redirect (genreUrl thegenre)],
         replaceGenreById s pathId { id := pathId, name := rawName })

/-! Helper lemmas about the store operations. -/

/-- Removing an id that is not present leaves the store unchanged. -/
theorem removeGenreById_of_not_found (s : Store) (i : Nat)
    (h : findGenreById s i = none) : removeGenreById s i = s := by
  unfold findGenreById at h
  unfold removeGenreById
  have hall : s.genres.filter (fun g => g.id ≠ i) = s.genres := by
    apply List.filter_eq_self.mpr
    intro a ha
    have h2 := List.find?_eq_none.mp h a ha
    simp at h2 ⊢
    exact h2
  rw [hall]

/-- After removing an id, a findById on that id returns nothing. -/
theorem findGenreById_removeGenreById (s : Store) (i : Nat) :
    findGenreById (removeGenreById s i) i = none := by
  unfold findGenreById removeGenreById
  apply List.find?_eq_none.mpr
  intro a ha
  have h2 := (List.mem_filter.mp ha).2
  simp at h2 ⊢
  exact h2

/-- After replacing the document at id i with a document whose id is i,
findById at i returns the new document. -/
theorem find?_map_replace (l : List Genre) (i : Nat) (ng : Genre)
    (hid : ng.id = i) (g : Genre)
    (h : l.find? (fun x => x.id = i) = some g) :
    (l.map (fun x => if x.id = i then ng else x)).find? (fun x => x.id = i) = some ng := by
  induction l with
  | nil => simp at h
  | cons a as ih =>
      by_cases ha : a.id = i
      · rw [List.map_cons, if_pos ha, List.find?_cons_of_pos _ (by simp [hid])]
      · rw [List.map_cons, if_neg ha, List.find?_cons_of_neg _ (by simp [ha])]
        rw [List.find?_cons_of_neg _ (by simp [ha])] at h
        exact ih h

/-! Claim theorems. -/

/-- Claim C1. The spec says the update-submit handler validates and
sanitizes name exactly as the create-submit handler, so that
update(existingId, a markup string) stores the escaped form, never raw
markup. The code does not: the validator chain is sealed inside a comma
expression with the handler, never runs, and the raw markup is persisted.
At store \x7b[Genre 1 "Fiction"]\x7d, update-submit at id 1 with body name
a script tag persists the raw tag, although its sanitized form is the
escaped entity string, which is different. -/
theorem C1_update_stores_raw_markup :
    (genre_update_post { genres := [{ id := 1, name := "Fiction" }], books := [], nextId := 2 }
        1 "<script>").2.genres = [{ id := 1, name := "<script>" }] ∧
    escapeString (jsTrim "<script>") = "&lt;script&gt;" ∧
    ("<script>" : String) ≠ "&lt;script&gt;" ∧
    (genre_update_post { genres := [{ id := 1, name := "Fiction" }], books := [], nextId := 2 }
        1 "A").2.genres = [{ id := 1, name := "A" }] := by
  decide

/-- Claim C2. A delete-submit whose id has at least one dependent Book
leaves the store unchanged (the Genre is not removed) and responds with a
single terminal render of the delete-confirmation view carrying the current
Genre and the dependent Book list; no error is signaled. -/
theorem C2_delete_blocked_by_books (s : Store) (genreid : Nat)
    (h : 0 < (booksOfGenre s genreid).length) :
    genre_delete_post s genreid =
      ([Response.render "genre_delete"
          { title := "Delete Genre", genre := findGenreById s genreid,
            genre_books := booksOfGenre s genreid }], s) := by
  unfold genre_delete_post
  rw [if_pos h]

/-- Witness for C2 at a store holding the Genre Sci-Fi with one dependent
Book. -/
theorem C2_delete_blocked_by_books_witness :
    0 < (booksOfGenre { genres := [{ id := 1, name := "Sci-Fi" }],
                        books := [{ id := 10, genre := 1 }], nextId := 2 } 1).length ∧
    genre_delete_post { genres := [{ id := 1, name := "Sci-Fi" }],
                        books := [{ id := 10, genre := 1 }], nextId := 2 } 1 =
      ([Response.render "genre_delete"
          { title := "Delete Genre",
            genre := findGenreById { genres := [{ id := 1, name := "Sci-Fi" }],
                                     books := [{ id := 10, genre := 1 }], nextId := 2 } 1,
            genre_books := booksOfGenre { genres := [{ id := 1, name := "Sci-Fi" }],
                                          books := [{ id := 10, genre := 1 }], nextId := 2 } 1 }],
       { genres := [{ id := 1, name := "Sci-Fi" }],
         books := [{ id := 10, genre := 1 }], nextId := 2 }) :=
  ⟨by decide,
   C2_delete_blocked_by_books
     { genres := [{ id := 1, name := "Sci-Fi" }],
       books := [{ id := 10, genre := 1 }], nextId := 2 } 1 (by decide)⟩

/-- Claim C3. A create-submit whose sanitized name equals the name of an
existing Genre inserts nothing and raises no error: the response is a
redirect to the existing Genre's detail location and the store is
unchanged. -/
theorem C3_duplicate_create_idempotent (s : Store) (raw : String) (g : Genre)
    (hv : (validateName raw).2 = [])
    (hf : findOneByName s (validateName raw).1 = some g) :
    genre_create_post s raw = ([Response.redirect (genreUrl g)], s) := by
  simp [genre_create_post, hv, hf]

/-- Witness for C3: create Fiction on the empty store, then create Fiction
again; the second call redirects to the first Genre's location, leaves the
store unchanged, and the resulting store holds exactly one Genre named
Fiction. -/
theorem C3_duplicate_create_idempotent_witness :
    ((validateName "Fiction").2 = [] ∧
     findOneByName (genre_create_post { genres := [], books := [], nextId := 1 } "Fiction").2
       (validateName "Fiction").1 = some { id := 1, name := "Fiction" }) ∧
    genre_create_post (genre_create_post { genres := [], books := [], nextId := 1 } "Fiction").2
        "Fiction" =
      ([Response.redirect (genreUrl { id := 1, name := "Fiction" })],
       (genre_create_post { genres := [], books := [], nextId := 1 } "Fiction").2) ∧
    ((genre_create_post (genre_create_post { genres := [], books := [], nextId := 1 } "Fiction").2
        "Fiction").2.genres.filter (fun g => g.name = "Fiction")).length = 1 :=
  ⟨⟨by decide, by decide⟩,
   C3_duplicate_create_idempotent
     (genre_create_post { genres := [], books := [], nextId := 1 } "Fiction").2
     "Fiction" { id := 1, name := "Fiction" } (by decide) (by decide),
   by decide⟩

/-- Claim C4. An update-submit on an existing Genre writes a candidate
carrying the original id from the route path, never a fresh id: the
response redirects to that Genre's location, and fetching by the original
id afterwards returns the new name under the unchanged id. -/
theorem C4_update_preserves_id (s : Store) (pathId : Nat) (rawName : String) (g : Genre)
    (h : findGenreById s pathId = some g) :
    genre_update_post s pathId rawName =
      ([Response.redirect (genreUrl g)],
       replaceGenreById s pathId { id := pathId, name := rawName }) ∧
    findGenreById (replaceGenreById s pathId { id := pathId, name := rawName }) pathId =
      some { id := pathId, name := rawName } := by
  constructor
  · simp [genre_update_post, h]
  · unfold findGenreById at h
    unfold findGenreById replaceGenreById
    exact find?_map_replace s.genres pathId _ rfl g h

/-- Witness for C4 at a store holding the Genre 7 "Old", updated to "New". -/
theorem C4_update_preserves_id_witness :
    findGenreById { genres := [{ id := 7, name := "Old" }], books := [], nextId := 8 } 7 =
      some { id := 7, name := "Old" } ∧
    (genre_update_post { genres := [{ id := 7, name := "Old" }], books := [], nextId := 8 }
        7 "New" =
      ([Response.redirect (genreUrl { id := 7, name := "Old" })],
       replaceGenreById { genres := [{ id := 7, name := "Old" }], books := [], nextId := 8 }
         7 { id := 7, name := "New" }) ∧
     findGenreById
       (replaceGenreById { genres := [{ id := 7, name := "Old" }], books := [], nextId := 8 }
         7 { id := 7, name := "New" }) 7 = some { id := 7, name := "New" }) :=
  ⟨by decide,
   C4_update_preserves_id { genres := [{ id := 7, name := "Old" }], books := [], nextId := 8 }
     7 "New" { id := 7, name := "Old" } (by decide)⟩

/-- Claim C5. The spec says a delete-display request with an unknown id
responds with exactly one response, a redirect to the Genre list, rendering
no view. The code misses the return after res.redirect and falls through,
so it also renders the confirmation view with a null genre: on the empty
store at id 1 the handler performs two response actions, a redirect
followed by a render. -/
theorem C5_delete_get_double_response :
    genre_delete_get { genres := [], books := [], nextId := 1 } 1 =
      ([Response.redirect "/catalog/genres",
        Response.render "genre_delete"
          { title := "Delete Genre", genre := none, genre_books := [] }],
       { genres := [], books := [], nextId := 1 }) := by
  decide

/-- Claim C6. A create-submit whose name trims to fewer than 2 characters
fails validation: the form is re-rendered with the candidate (escaped,
trimmed) value and the minimum-length message, the store is untouched, and
the response is terminal; a name of trimmed length exactly 2 ("Ab") passes
validation while "A" collects exactly the minimum-length message. -/
theorem C6_create_short_name_rejected (s : Store) (raw : String)
    (h : (jsTrim raw).length < 2) :
    genre_create_post s raw =
      ([Response.render "genre_form"
          { title := "Create Genre",
            genre := some { id := s.nextId, name := escapeString (jsTrim raw) },
            errors := ["Genre name must contain at least 2 characters"] }], s) ∧
    (validateName "Ab").2 = [] ∧
    (validateName "A").2 = ["Genre name must contain at least 2 characters"] := by
  refine ⟨?_, by decide, by decide⟩
  have hv : validateName raw =
      (escapeString (jsTrim raw), ["Genre name must contain at least 2 characters"]) := by
    unfold validateName
    rw [if_neg (by omega)]
  simp [genre_create_post, hv]

/-- Witness for C6 at the empty store with the one-character name "A". -/
theorem C6_create_short_name_rejected_witness :
    (jsTrim "A").length < 2 ∧
    (genre_create_post { genres := [], books := [], nextId := 1 } "A" =
      ([Response.render "genre_form"
          { title := "Create Genre",
            genre := some { id := 1, name := escapeString (jsTrim "A") },
            errors := ["Genre name must contain at least 2 characters"] }],
       { genres := [], books := [], nextId := 1 }) ∧
     (validateName "Ab").2 = [] ∧
     (validateName "A").2 = ["Genre name must contain at least 2 characters"]) :=
  ⟨by decide,
   C6_create_short_name_rejected { genres := [], books := [], nextId := 1 } "A" (by decide)⟩

/-- Claim C7. A delete-submit whose body-supplied id has zero dependent
Books removes that Genre and redirects to the Genre list; fetching the
detail page by that id afterwards signals the 404 not-found error. -/
theorem C7_delete_without_books (s : Store) (genreid : Nat)
    (hb : booksOfGenre s genreid = []) :
    genre_delete_post s genreid =
      ([Response.redirect "/catalog/genres"], removeGenreById s genreid) ∧
    findGenreById (removeGenreById s genreid) genreid = none ∧
    (genre_detail (removeGenreById s genreid) genreid).1 =
      [Response.nextError "Genre not found" 404] := by
  refine ⟨?_, findGenreById_removeGenreById s genreid, ?_⟩
  · unfold genre_delete_post
    rw [if_neg (by simp [hb])]
  · simp [genre_detail, findGenreById_removeGenreById s genreid]

/-- Witness for C7 at a store holding the Genre 3 "Poetry" and no Books. -/
theorem C7_delete_without_books_witness :
    booksOfGenre { genres := [{ id := 3, name := "Poetry" }], books := [], nextId := 4 } 3 = [] ∧
    (genre_delete_post { genres := [{ id := 3, name := "Poetry" }], books := [], nextId := 4 } 3 =
      ([Response.redirect "/catalog/genres"],
       removeGenreById { genres := [{ id := 3, name := "Poetry" }], books := [], nextId := 4 } 3) ∧
     findGenreById
       (removeGenreById { genres := [{ id := 3, name := "Poetry" }], books := [], nextId := 4 } 3)
       3 = none ∧
     (genre_detail
       (removeGenreById { genres := [{ id := 3, name := "Poetry" }], books := [], nextId := 4 } 3)
       3).1 = [Response.nextError "Genre not found" 404]) :=
  ⟨by decide,
   C7_delete_without_books { genres := [{ id := 3, name := "Poetry" }], books := [], nextId := 4 }
     3 (by decide)⟩

/-- Claim C8. Detail requests and update-display requests on an id matching
no Genre render nothing: both signal the distinct not-found error carrying
status 404 to the upstream error handler, leaving the store unchanged. -/
theorem C8_not_found_is_404 (s : Store) (i : Nat)
    (h : findGenreById s i = none) :
    genre_detail s i = ([Response.nextError "Genre not found" 404], s) ∧
    genre_update_get s i = ([Response.nextError "Genre not found" 404], s) := by
  constructor
  · simp [genre_detail, h]
  · simp [genre_update_get, h]

/-- Witness for C8 at the empty store with id 9. -/
theorem C8_not_found_is_404_witness :
    findGenreById { genres := [], books := [], nextId := 1 } 9 = none ∧
    (genre_detail { genres := [], books := [], nextId := 1 } 9 =
      ([Response.nextError "Genre not found" 404], { genres := [], books := [], nextId := 1 }) ∧
     genre_update_get { genres := [], books := [], nextId := 1 } 9 =
      ([Response.nextError "Genre not found" 404], { genres := [], books := [], nextId := 1 })) :=
  ⟨by decide, C8_not_found_is_404 { genres := [], books := [], nextId := 1 } 9 (by decide)⟩

/-- Claim C9. For every store state the list operation renders, in one
terminal response, the full sequence of Genres (a permutation of the
store's contents) sorted ascending by name, regardless of creation order. -/
theorem C9_list_sorted_by_name (s : Store) :
    genre_list s =
      ([Response.render "genre_list"
          { title := "Genre List", genre_list := sortGenresByName s.genres }], s) ∧
    (sortGenresByName s.genres).Perm s.genres ∧
    List.Sorted genreLe (sortGenresByName s.genres) :=
  ⟨rfl, List.perm_insertionSort genreLe s.genres, List.sorted_insertionSort genreLe s.genres⟩

/-- Claim C10. A delete-submit whose body-supplied id matches no Genre and
has no dependent Books signals no not-found error: the delete-by-id removes
nothing, the store is unchanged, and the response is the redirect to the
Genre list. -/
theorem C10_delete_missing_id_soft (s : Store) (genreid : Nat)
    (hg : findGenreById s genreid = none)
    (hb : booksOfGenre s genreid = []) :
    genre_delete_post s genreid = ([Response.redirect "/catalog/genres"], s) := by
  unfold genre_delete_post
  rw [if_neg (by simp [hb]), removeGenreById_of_not_found s genreid hg]

/-- Witness for C10 at a store holding only the unrelated Genre 1 "Fiction",
deleting the absent id 5. -/
theorem C10_delete_missing_id_soft_witness :
    findGenreById { genres := [{ id := 1, name := "Fiction" }], books := [], nextId := 2 } 5 =
      none ∧
    booksOfGenre { genres := [{ id := 1, name := "Fiction" }], books := [], nextId := 2 } 5 =
      [] ∧
    genre_delete_post { genres := [{ id := 1, name := "Fiction" }], books := [], nextId := 2 } 5 =
      ([Response.redirect "/catalog/genres"],
       { genres := [{ id := 1, name := "Fiction" }], books := [], nextId := 2 }) :=
  ⟨by decide, by decide,
   C10_delete_missing_id_soft
     { genres := [{ id := 1, name := "Fiction" }], books := [], nextId := 2 } 5
     (by decide) (by decide)⟩

end GenreApp
